import Mathlib

/-!
Verification of the transcription orchestration core of the atasa-blog-api
repository against its natural-language specification.

The JavaScript source keeps several near-duplicate snapshots of the whole
service.  The definitions below are a shallow embedding of the parts the
claims talk about:

* src/unnamed/part_000 : startTranscription, checkAutoBlogCreation, the
  extract-audio endpoint, the PUT transcript endpoint, DELETE posts.
* src/unnamed/part_001 (first snapshot) : getYouTubeAudioUrl with the
  cobalt and vevioz backends, and the transcribe endpoint background task
  with its unbounded poll loop.
* src/unnamed/part_002 : getYouTubeAudioUrl with the two yt-dlp backends.
* src/src/index.js : the transcribe / extract-audio handlers whose catch
  blocks and poll loops coincide state-wise with the part_000 ones.

Database rows are modelled as Lean structures; every SQL UPDATE of the
orchestration becomes a function on the row.  Network and provider
responses are inputs: each fetch that can throw or return an error payload
is an Except or Option argument, and a polling loop receives the stream of
provider status answers it would observe.  Timestamps (CURRENT_TIMESTAMP)
are a Nat argument.  Log lines (console.log / console.error) have no state
effect and are dropped.  Presentation-only derivations (slug, excerpt,
read time, the BASLIK title extraction) do not influence any claim and are
elided from the Post structure.
-/

/-- JavaScript truthiness of a nullable string: null, undefined and the
empty string are falsy, every other string is truthy. -/
def jsTruthy : Option String → Bool
  | none => false
  | some s => !s.isEmpty

/-- JavaScript `x || d` on a nullable string, as used by
`status || 'completed'` in the PUT transcript endpoint. -/
def jsOrElse (x : Option String) (d : String) : String :=
  match x with
  | none => d
  | some s => if s.isEmpty then d else s

/-- One row of the youtube_videos table, restricted to the columns the
transcription orchestration reads or writes.  Statuses are stored as raw
strings, exactly as in the VARCHAR(20) columns. -/
structure VideoRecord where
  id : String
  audio_url : Option String
  audio_status : String
  transcript : Option String
  transcript_status : String
  transcript_job_id : Option String
  transcript_model : Option String
  transcript_updated_at : Option Nat
  blog_created : Bool
  blog_post_id : Option Nat
deriving DecidableEq, Repr

/-- One row of the posts table, restricted to the columns the claims
depend on (the SERIAL id, the generated content, the publish status and
the video_id back reference). -/
structure Post where
  id : Nat
  content : String
  status : String
  video_id : Option String
deriving DecidableEq, Repr

/-- The persistent state touched by the orchestration: the video row under
consideration, the posts table and the next SERIAL post id. -/
structure DB where
  video : VideoRecord
  posts : List Post
  nextPostId : Nat
deriving DecidableEq, Repr

/-- One provider status answer as observed by a polling iteration.
completedResp carries the transcript payload of the answer, failedResp the
provider error message.  extracting and transcribing are the intermediate
phases some providers report; other stands for any further non-terminal
status (queued, processing, ...). -/
inductive PollResp
  | completedResp (transcript : Option String)
  | failedResp (error : Option String)
  | extracting
  | transcribing
  | other
deriving DecidableEq, Repr

/-- How a polling loop ended: success (completed written), threw (a
provider-reported failure raised an exception) or timeout (the attempt
budget ran out with completed still false). -/
inductive RunExit
  | success
  | threw
  | timeout
deriving DecidableEq, Repr

/-- The UPDATE run by startTranscription (src/unnamed/part_000 line 206)
when a poll answer is completed: audio_status completed, transcript set to
the payload, transcript_status completed, transcript_model set to the
provider, transcript_updated_at set to now.  The index.js transcribe
handler (lines 756-760) issues the same writes as two UPDATE statements. -/
def completedWrite (provider : String) (transcript : Option String) (now : Nat)
    (v : VideoRecord) : VideoRecord :=
  { v with audio_status := "completed", transcript := transcript,
           transcript_status := "completed", transcript_model := some provider,
           transcript_updated_at := some now }

/-- The catch-handler UPDATE of startTranscription (src/unnamed/part_000
line 224) and of the index.js transcribe handler (lines 776-779):
transcript_status failed, and audio_status failed only when it is
currently processing (CASE WHEN audio_status = processing THEN failed ELSE
audio_status END). -/
def failWriteGuarded (v : VideoRecord) : VideoRecord :=
  { v with transcript_status := "failed",
           audio_status := if v.audio_status = "processing" then "failed" else v.audio_status }

/-- The bounded poll loop of startTranscription (src/unnamed/part_000
lines 193-218) and of the index.js transcribe handler (lines 742-770),
which differ only in log lines.  polls gives the provider answer of each
attempt, fuel is the remaining attempt budget (120 at the top call), i the
attempt index.  Returns the row after the loop, how the loop ended, and
the number of status checks performed.  A transcribing answer refines
audio_status to completed; extracting and other answers change nothing. -/
def pollLoop0 (polls : Nat → PollResp) (provider : String) (now : Nat) :
    Nat → Nat → VideoRecord → VideoRecord × RunExit × Nat
  | 0, _, v => (v, RunExit.timeout, 0)
  | fuel + 1, i, v =>
    match polls i with
    | PollResp.completedResp t => (completedWrite provider t now v, RunExit.success, 1)
    | PollResp.failedResp _ => (v, RunExit.threw, 1)
    | PollResp.transcribing =>
        let r := pollLoop0 polls provider now fuel (i + 1) { v with audio_status := "completed" }
        (r.1, r.2.1, r.2.2 + 1)
    | PollResp.extracting =>
        let r := pollLoop0 polls provider now fuel (i + 1) v
        (r.1, r.2.1, r.2.2 + 1)
    | PollResp.other =>
        let r := pollLoop0 polls provider now fuel (i + 1) v
        (r.1, r.2.1, r.2.2 + 1)

/-- Environment of one checkAutoBlogCreation run: the three settings it
reads through getSetting (which maps a missing or empty value to null, so
an Option that is never some of the empty string), and the outcome of the
OpenAI chat completion call (error payload or generated content). -/
structure AutoBlogEnv where
  auto_blog : Option String
  openai_api_key : Option String
  auto_publish : Option String
  openaiResult : Except String String
deriving Repr

/-- checkAutoBlogCreation (src/unnamed/part_000 lines 229-299).  Returns
without touching the state when the auto_blog setting is not the string
true, when no OpenAI key is configured, when the transcript is null or
empty, or when blog_created is already set.  A failing OpenAI call throws
and is caught by the local catch handler, which only logs.  On success it
inserts one post and then marks the video with blog_created true and
blog_post_id set to the new SERIAL id.  The early return for a missing
video row is elided: the orchestration only invokes this on the id of the
row held in DB. -/
def checkAutoBlogCreation (env : AutoBlogEnv) (db : DB) : DB :=
  if env.auto_blog ≠ some "true" then db
  else if env.openai_api_key.isNone then db
  else if !jsTruthy db.video.transcript || db.video.blog_created then db
  else
    match env.openaiResult with
    | Except.error _ => db
    | Except.ok content =>
      let postStatus := if env.auto_publish = some "true" then "published" else "draft"
      let post : Post := { id := db.nextPostId, content := content,
                           status := postStatus, video_id := some db.video.id }
      { db with posts := db.posts ++ [post],
                nextPostId := db.nextPostId + 1,
                video := { db.video with blog_created := true,
                                         blog_post_id := some db.nextPostId } }

/-- Tail of startTranscription after the poll loop: on a completed answer
the terminal write was already made inside the loop and
checkAutoBlogCreation is invoked; on a provider-reported failure or on
exhaustion of the attempt budget the thrown error reaches the catch
handler, which performs the guarded failure write. -/
def startFinish (blogEnv : AutoBlogEnv) (db : DB)
    (r : VideoRecord × RunExit × Nat) : DB :=
  match r.2.1 with
  | RunExit.success => checkAutoBlogCreation blogEnv { db with video := r.1 }
  | RunExit.threw => { db with video := failWriteGuarded r.1 }
  | RunExit.timeout => { db with video := failWriteGuarded r.1 }

/-- The first UPDATE of startTranscription (src/unnamed/part_000 line
179): transcript_status and audio_status both set to processing. -/
def startProcessingWrite (v : VideoRecord) : VideoRecord :=
  { v with transcript_status := "processing", audio_status := "processing" }

/-- startTranscription (src/unnamed/part_000 lines 177-226).  First the
processing write is made.  The transcribe submission either fails
(transcribeData.success false, modelled as Except.error, leading straight
to the catch handler) or yields a job id that is persisted before polling
starts.  The poll loop then runs with maxAttempts 120 and its outcome is
dispatched by startFinish. -/
def startTranscription (provider : String) (submitResult : Except String String)
    (polls : Nat → PollResp) (blogEnv : AutoBlogEnv) (now : Nat) (db : DB) : DB :=
  match submitResult with
  | Except.error _ => { db with video := failWriteGuarded (startProcessingWrite db.video) }
  | Except.ok jobId =>
      startFinish blogEnv db
        (pollLoop0 polls provider now 120 0
          { startProcessingWrite db.video with transcript_job_id := some jobId })

/-- PUT /api/youtube/videos/:id/transcript (src/unnamed/part_000 lines
433-439): writes the request body fields transcript and model as given
(null when absent), transcript_status as status with default completed
(the JavaScript status || expression), and always sets
transcript_updated_at to now. -/
def putTranscript (transcript model status : Option String) (now : Nat)
    (v : VideoRecord) : VideoRecord :=
  { v with transcript := transcript, transcript_model := model,
           transcript_status := jsOrElse status "completed",
           transcript_updated_at := some now }

/-- The poll loop of the extract-audio background task
(src/unnamed/part_000 lines 525-540, src/src/index.js lines 877-895):
maxAttempts 60; a completed answer writes the audio processor URL and
audio_status completed, a failed answer throws, every other answer does
nothing.  Returns the row, how the loop ended, and the number of status
checks performed. -/
def extractPollLoop (polls : Nat → PollResp) (audioUrl : String) :
    Nat → Nat → VideoRecord → VideoRecord × RunExit × Nat
  | 0, _, v => (v, RunExit.timeout, 0)
  | fuel + 1, i, v =>
    match polls i with
    | PollResp.completedResp _ =>
        ({ v with audio_url := some audioUrl, audio_status := "completed" },
         RunExit.success, 1)
    | PollResp.failedResp _ => (v, RunExit.threw, 1)
    | _ =>
        let r := extractPollLoop polls audioUrl fuel (i + 1) v
        (r.1, r.2.1, r.2.2 + 1)

/-- The catch-handler UPDATE of the extract-audio background task
(src/unnamed/part_000 lines 544-547, src/src/index.js lines 899-902):
audio_status is set to failed unconditionally, with no processing-only
guard, unlike the transcription catch handler. -/
def extractFailWrite (v : VideoRecord) : VideoRecord :=
  { v with audio_status := "failed" }

/-- Tail of the extract-audio background task: a loop that ended in a
provider failure or in attempt exhaustion throws, and the catch handler
performs the unconditional failure write. -/
def extractFinish (r : VideoRecord × RunExit × Nat) : VideoRecord × RunExit :=
  match r.2.1 with
  | RunExit.success => (r.1, RunExit.success)
  | RunExit.threw => (extractFailWrite r.1, RunExit.threw)
  | RunExit.timeout => (extractFailWrite r.1, RunExit.timeout)

/-- POST /api/youtube/videos/:id/extract-audio (src/unnamed/part_000 lines
503-552, src/src/index.js lines 858-907): set audio_status processing,
submit the extract job (a failure goes straight to the catch handler),
poll with maxAttempts 60, and on success keep the completed write of the
loop.  Returns the final row together with how the background run ended. -/
def extractAudioOnly (processorUrl videoId : String)
    (submitResult : Except String String) (polls : Nat → PollResp)
    (v : VideoRecord) : VideoRecord × RunExit :=
  match submitResult with
  | Except.error _ =>
      (extractFailWrite { v with audio_status := "processing" }, RunExit.threw)
  | Except.ok _ =>
      extractFinish (extractPollLoop polls (processorUrl ++ "/audio/" ++ videoId)
        60 0 { v with audio_status := "processing" })

/-- DELETE /api/posts/:id (src/unnamed/part_000 lines 666-678,
src/src/index.js lines 1022-1034): delete the post row; when the deleted
row carried a video_id matching the held video, reset blog_created to
false and blog_post_id to null on that video.  The Bool reports whether a
row was found (404 otherwise). -/
def deletePost (postId : Nat) (db : DB) : DB × Bool :=
  match db.posts.find? (fun p => p.id == postId) with
  | none => (db, false)
  | some p =>
    let db1 := { db with posts := db.posts.filter (fun q => q.id != postId) }
    match p.video_id with
    | some vid =>
        if db.video.id = vid then
          ({ db1 with video := { db1.video with blog_created := false,
                                                blog_post_id := none } }, true)
        else (db1, true)
    | none => (db1, true)

/-- Second backend of getYouTubeAudioUrl in src/unnamed/part_001 (lines
143-149): the vevioz HTML is scraped for an mp3 href; the input is the
regex match (null when the request threw or nothing matched).  A match
returns its captured URL, otherwise the exhaustion error is thrown. -/
def veviozStep (veviozMatch : Option String) : Except String String :=
  match veviozMatch with
  | some m => Except.ok m
  | none => Except.error "Ses URL alınamadı"

/-- getYouTubeAudioUrl of src/unnamed/part_001 (lines 129-152): try the
cobalt backend first (its answer is the url field of the JSON, null when
the request threw), use it when truthy, otherwise fall through to the
vevioz backend, and throw only after both have been tried.  The Nat is
the number of backends attempted. -/
def getYouTubeAudioUrl_v1 (cobaltUrl veviozMatch : Option String) :
    Except String String × Nat :=
  match cobaltUrl with
  | some u => if u.isEmpty then (veviozStep veviozMatch, 2) else (Except.ok u, 1)
  | none => (veviozStep veviozMatch, 2)

/-- The audioUrl.startsWith http check of src/unnamed/part_002 line 143,
modelled as a prefix check on the character data because the byte-position
based String.startsWith of the standard library is opaque to kernel
reduction; on Unicode strings the two coincide for the ASCII needle
http. -/
def startsWithHttp (s : String) : Bool :=
  s.data.take 4 == "http".data

/-- getYouTubeAudioUrl of src/unnamed/part_002 (lines 134-176): first ask
yt-dlp for a direct URL; ytdlpUrl is the trimmed stdout of that command
(null when it threw), used when non-empty and starting with http.
Otherwise fall back to downloading the mp3 with yt-dlp (downloadOk says
whether the output file exists afterwards) and return a file URL to the
temp path; throw only after both backends were tried.  The Nat is the
number of backends attempted. -/
def getYouTubeAudioUrl_v2 (ytdlpUrl : Option String) (downloadOk : Bool)
    (tempDir videoId : String) : Except String String × Nat :=
  let fallback : Except String String :=
    if downloadOk then Except.ok ("file://" ++ tempDir ++ "/" ++ videoId ++ ".mp3")
    else Except.error "Audio URL alınamadı"
  match ytdlpUrl with
  | some url =>
    if !url.isEmpty && startsWithHttp url then (Except.ok url, 1)
    else (fallback, 2)
  | none => (fallback, 2)

/-- The catch-handler UPDATE of the part_001 transcribe background task
(src/unnamed/part_001 line 250): transcript_status failed, audio fields
untouched. -/
def failWrite1 (v : VideoRecord) : VideoRecord :=
  { v with transcript_status := "failed" }

/-- The unbounded poll loop of the part_001 transcribe background task
(src/unnamed/part_001 lines 231-247): while not completed, wait 5000 ms
and check the AssemblyAI job; a completed answer writes transcript,
transcript_status completed, transcript_model assemblyai and
transcript_updated_at, an error answer throws, anything else just loops.
There is no attempt ceiling, so the loop is observed through a finite list
of provider answers: the result is none when the answers ran out with the
loop still going, and the Nat counts the status checks performed. -/
def pollLoop1 (now : Nat) : List PollResp → VideoRecord →
    Option (VideoRecord × RunExit) × Nat
  | [], _ => (none, 0)
  | r :: rest, v =>
    match r with
    | PollResp.completedResp t =>
        (some ({ v with transcript := t, transcript_status := "completed",
                        transcript_model := some "assemblyai",
                        transcript_updated_at := some now }, RunExit.success), 1)
    | PollResp.failedResp _ => (some (v, RunExit.threw), 1)
    | _ =>
        let r := pollLoop1 now rest v
        (r.1, r.2 + 1)

/-- Result of one observed run of the part_001 transcribe background task:
the final row (none while the unbounded poll loop is still running),
the number of provider status checks made, whether getYouTubeAudioUrl was
invoked, and the audio URL handed to the AssemblyAI submission (none when
the run failed before submitting). -/
structure Task1Run where
  final : Option VideoRecord
  checks : Nat
  extracted : Bool
  submitted : Option String
deriving Repr

/-- Submission and polling tail of the part_001 transcribe task
(src/unnamed/part_001 lines 213-251): submit to AssemblyAI (an error
payload throws to the catch handler), persist the job id, then run the
unbounded poll loop; a throw inside the loop also reaches the catch
handler, which writes transcript_status failed only. -/
def transcribeSubmitAndPoll (submitResult : Except String String)
    (polls : List PollResp) (now : Nat) (v : VideoRecord)
    (audioUrl : Option String) (extractedFlag : Bool) : Task1Run :=
  match submitResult with
  | Except.error _ =>
      { final := some (failWrite1 v), checks := 0,
        extracted := extractedFlag, submitted := audioUrl }
  | Except.ok jobId =>
    match pollLoop1 now polls { v with transcript_job_id := some jobId } with
    | (none, n) =>
        { final := none, checks := n, extracted := extractedFlag, submitted := audioUrl }
    | (some (v3, RunExit.success), n) =>
        { final := some v3, checks := n, extracted := extractedFlag, submitted := audioUrl }
    | (some (v3, _), n) =>
        { final := some (failWrite1 v3), checks := n,
          extracted := extractedFlag, submitted := audioUrl }

/-- The POST /api/youtube/videos/:id/transcribe flow of
src/unnamed/part_001 (lines 184-256).  The handler reads the row, writes
transcript_status processing and spawns the background task.  The task
reuses the stored audio when the row read before the write had a truthy
audio_url and audio_status completed; otherwise it calls
getYouTubeAudioUrl (extractResult is its outcome) and persists the fresh
URL with audio_status completed before submitting. -/
def transcribeTask1 (video : VideoRecord) (extractResult : Except String String)
    (submitResult : Except String String) (polls : List PollResp)
    (now : Nat) : Task1Run :=
  let v1 := { video with transcript_status := "processing" }
  if jsTruthy video.audio_url ∧ video.audio_status = "completed" then
    transcribeSubmitAndPoll submitResult polls now v1 video.audio_url false
  else
    match extractResult with
    | Except.error _ =>
        { final := some (failWrite1 v1), checks := 0,
          extracted := true, submitted := none }
    | Except.ok url =>
        transcribeSubmitAndPoll submitResult polls now
          { v1 with audio_url := some url, audio_status := "completed" }
          (some url) true

/-- A freshly ingested video row: both statuses pending, all nullable
columns null, as produced by the youtube_videos INSERT defaults. -/
def sampleVideo : VideoRecord :=
  { id := "vid1", audio_url := none, audio_status := "pending",
    transcript := none, transcript_status := "pending",
    transcript_job_id := none, transcript_model := none,
    transcript_updated_at := none, blog_created := false, blog_post_id := none }

/-- A row whose audio extraction already completed in a prior run. -/
def sampleVideoAudioDone : VideoRecord :=
  { sampleVideo with audio_url := some "https://audio/v1.mp3",
                     audio_status := "completed" }

/-- A row with a completed transcript whose auto-created blog post number
one is still present. -/
def sampleVideoBlogDone : VideoRecord :=
  { sampleVideo with transcript := some "hello world",
                     transcript_status := "completed",
                     blog_created := true, blog_post_id := some 1 }

/-- A database holding sampleVideoBlogDone together with its blog post. -/
def sampleDB : DB :=
  { video := sampleVideoBlogDone,
    posts := [{ id := 1, content := "post body", status := "draft",
                video_id := some "vid1" }],
    nextPostId := 2 }

/-- An auto-blog environment with the feature enabled, a configured key
and a successful generation call. -/
def sampleBlogEnv : AutoBlogEnv :=
  { auto_blog := some "true", openai_api_key := some "sk-key",
    auto_publish := some "false", openaiResult := Except.ok "generated blog" }

/-- A provider answer stream that stays non-terminal for 121 checks and
only then reports completion: the part_000 poller gives up on it at
attempt 120, while the part_001 poller keeps going. -/
def longPolls : List PollResp :=
  List.replicate 121 PollResp.other ++ [PollResp.completedResp (some "t")]

/-- The row produced by the settled sample run used to witness C1: audio
reused, job id persisted, first poll answer completed with text hello at
time 7. -/
def c1Final : VideoRecord :=
  { sampleVideoAudioDone with
    transcript := some "hello", transcript_status := "completed",
    transcript_job_id := some "job", transcript_model := some "assemblyai",
    transcript_updated_at := some 7 }

theorem pollLoop0_success_status (polls : Nat → PollResp) (provider : String)
    (now : Nat) : ∀ fuel i v,
    (pollLoop0 polls provider now fuel i v).2.1 = RunExit.success →
    (pollLoop0 polls provider now fuel i v).1.transcript_status = "completed" := by
  intro fuel
  induction fuel with
  | zero => intro i v h; simp [pollLoop0] at h
  | succ n ih =>
    intro i v h
    rw [pollLoop0] at h ⊢
    cases hp : polls i <;> simp only [hp] at h ⊢
    · simp [completedWrite]
    · simp at h
    · exact ih (i + 1) _ h
    · exact ih (i + 1) _ h
    · exact ih (i + 1) _ h

theorem pollLoop0_checks_le (polls : Nat → PollResp) (provider : String)
    (now : Nat) : ∀ fuel i v,
    (pollLoop0 polls provider now fuel i v).2.2 ≤ fuel := by
  intro fuel
  induction fuel with
  | zero => intro i v; simp [pollLoop0]
  | succ n ih =>
    intro i v
    rw [pollLoop0]
    cases hp : polls i <;> simp only [hp]
    · simp
    · simp
    · exact Nat.succ_le_succ (ih (i + 1) _)
    · exact Nat.succ_le_succ (ih (i + 1) _)
    · exact Nat.succ_le_succ (ih (i + 1) _)

theorem pollLoop0_all_other (provider : String) (now : Nat) : ∀ fuel i v,
    pollLoop0 (fun _ => PollResp.other) provider now fuel i v
      = (v, RunExit.timeout, fuel) := by
  intro fuel
  induction fuel with
  | zero => intro i v; rw [pollLoop0]
  | succ n ih =>
    intro i v
    rw [pollLoop0]
    simp only [ih (i + 1) v]

theorem extractPollLoop_checks_le (polls : Nat → PollResp) (url : String) :
    ∀ fuel i v, (extractPollLoop polls url fuel i v).2.2 ≤ fuel := by
  intro fuel
  induction fuel with
  | zero => intro i v; simp [extractPollLoop]
  | succ n ih =>
    intro i v
    rw [extractPollLoop]
    cases hp : polls i <;> simp only [hp]
    · simp
    · simp
    · exact Nat.succ_le_succ (ih (i + 1) _)
    · exact Nat.succ_le_succ (ih (i + 1) _)
    · exact Nat.succ_le_succ (ih (i + 1) _)

theorem extractPollLoop_all_other (url : String) : ∀ fuel i v,
    extractPollLoop (fun _ => PollResp.other) url fuel i v
      = (v, RunExit.timeout, fuel) := by
  intro fuel
  induction fuel with
  | zero => intro i v; rw [extractPollLoop]
  | succ n ih =>
    intro i v
    rw [extractPollLoop]
    simp only [ih (i + 1) v]

theorem pollLoop1_success_status (now : Nat) : ∀ polls v v₃,
    (pollLoop1 now polls v).1 = some (v₃, RunExit.success) →
    v₃.transcript_status = "completed" := by
  intro polls
  induction polls with
  | nil => intro v v₃ h; simp [pollLoop1] at h
  | cons r rest ih =>
    intro v v₃ h
    cases r with
    | completedResp t =>
      rw [pollLoop1] at h
      simp only [Option.some.injEq, Prod.mk.injEq] at h
      rw [← h.1]
    | failedResp e =>
      rw [pollLoop1] at h
      simp at h
    | extracting => simp only [pollLoop1] at h; exact ih v v₃ h
    | transcribing => simp only [pollLoop1] at h; exact ih v v₃ h
    | other => simp only [pollLoop1] at h; exact ih v v₃ h

theorem pollLoop1_all_other (now : Nat) : ∀ n v,
    pollLoop1 now (List.replicate n PollResp.other) v = (none, n) := by
  intro n
  induction n with
  | zero => intro v; rfl
  | succ k ih =>
    intro v
    simp only [List.replicate, pollLoop1, ih v]

theorem submitAndPoll_flags (sr : Except String String) (polls : List PollResp)
    (now : Nat) (v : VideoRecord) (aurl : Option String) (ef : Bool) :
    (transcribeSubmitAndPoll sr polls now v aurl ef).extracted = ef ∧
    (transcribeSubmitAndPoll sr polls now v aurl ef).submitted = aurl := by
  unfold transcribeSubmitAndPoll
  repeat' split
  all_goals exact ⟨rfl, rfl⟩

theorem submitAndPoll_terminal (sr : Except String String) (polls : List PollResp)
    (now : Nat) (v : VideoRecord) (aurl : Option String) (ef : Bool)
    (v' : VideoRecord)
    (h : (transcribeSubmitAndPoll sr polls now v aurl ef).final = some v') :
    v'.transcript_status = "completed" ∨ v'.transcript_status = "failed" := by
  unfold transcribeSubmitAndPoll at h
  split at h
  · simp only [Option.some.injEq] at h
    right; rw [← h]; rfl
  · split at h
    · simp at h
    · rename_i jobId v₃ n heq
      simp only [Option.some.injEq] at h
      left
      rw [← h]
      exact pollLoop1_success_status now polls _ v₃ (by rw [heq])
    · simp only [Option.some.injEq] at h
      right; rw [← h]; rfl

theorem autoBlog_video_fields (env : AutoBlogEnv) (db : DB) :
    (checkAutoBlogCreation env db).video.transcript = db.video.transcript ∧
    (checkAutoBlogCreation env db).video.transcript_status = db.video.transcript_status ∧
    (checkAutoBlogCreation env db).video.transcript_model = db.video.transcript_model ∧
    (checkAutoBlogCreation env db).video.transcript_updated_at = db.video.transcript_updated_at ∧
    (checkAutoBlogCreation env db).video.audio_status = db.video.audio_status ∧
    (checkAutoBlogCreation env db).video.audio_url = db.video.audio_url := by
  unfold checkAutoBlogCreation
  split
  · exact ⟨rfl, rfl, rfl, rfl, rfl, rfl⟩
  split
  · exact ⟨rfl, rfl, rfl, rfl, rfl, rfl⟩
  split
  · exact ⟨rfl, rfl, rfl, rfl, rfl, rfl⟩
  split
  · exact ⟨rfl, rfl, rfl, rfl, rfl, rfl⟩
  · exact ⟨rfl, rfl, rfl, rfl, rfl, rfl⟩

theorem autoBlog_cases (env : AutoBlogEnv) (db : DB) :
    checkAutoBlogCreation env db = db ∨
    (db.video.blog_created = false ∧
     (checkAutoBlogCreation env db).video.blog_created = true ∧
     (checkAutoBlogCreation env db).video.blog_post_id = some db.nextPostId ∧
     (checkAutoBlogCreation env db).posts.length = db.posts.length + 1) := by
  unfold checkAutoBlogCreation
  split
  · exact Or.inl rfl
  split
  · exact Or.inl rfl
  split
  · exact Or.inl rfl
  rename_i h1 h2 h3
  split
  · exact Or.inl rfl
  · right
    have hbc : db.video.blog_created = false := by
      revert h3
      cases db.video.blog_created <;> simp
    exact ⟨hbc, rfl, rfl, by simp⟩

theorem autoBlog_created_identity (env : AutoBlogEnv) (db : DB)
    (h : db.video.blog_created = true) : checkAutoBlogCreation env db = db := by
  unfold checkAutoBlogCreation
  split
  · rfl
  split
  · rfl
  split
  · rfl
  rename_i h1 h2 h3
  rw [h] at h3
  simp at h3

theorem pollLoop0_first_completed (polls : Nat → PollResp) (provider : String)
    (now : Nat) (fuel i : Nat) (v : VideoRecord) (t : Option String)
    (h : polls i = PollResp.completedResp t) :
    pollLoop0 polls provider now (fuel + 1) i v
      = (completedWrite provider t now v, RunExit.success, 1) := by
  rw [pollLoop0, h]

theorem pollLoop0_120_first_completed (polls : Nat → PollResp) (provider : String)
    (now : Nat) (v : VideoRecord) (t : Option String)
    (h : polls 0 = PollResp.completedResp t) :
    pollLoop0 polls provider now 120 0 v
      = (completedWrite provider t now v, RunExit.success, 1) :=
  pollLoop0_first_completed polls provider now 119 0 v t h

theorem startFinish_success (blogEnv : AutoBlogEnv) (db : DB)
    (v₃ : VideoRecord) (n : Nat) :
    startFinish blogEnv db (v₃, RunExit.success, n)
      = checkAutoBlogCreation blogEnv { db with video := v₃ } := rfl

theorem startFinish_terminal (blogEnv : AutoBlogEnv) (db : DB)
    (r : VideoRecord × RunExit × Nat)
    (hs : r.2.1 = RunExit.success → r.1.transcript_status = "completed") :
    (startFinish blogEnv db r).video.transcript_status = "completed" ∨
    (startFinish blogEnv db r).video.transcript_status = "failed" := by
  rcases r with ⟨v₃, ex, n⟩
  cases ex with
  | success =>
    left
    rw [startFinish]
    have hp := (autoBlog_video_fields blogEnv { db with video := v₃ }).2.1
    rw [hp]
    exact hs rfl
  | threw => right; rfl
  | timeout => right; rfl

/-- C1: for every video on which the transcription pipeline is started,
once the pipeline settles the persisted transcript_status is completed or
failed.  First conjunct: every run of startTranscription (part_000) ends
with a terminal transcript_status, whatever the submission outcome and
the provider answer stream.  Second conjunct: every settled run of the
part_001 transcribe background task (its final row is some) also ends
with a terminal transcript_status; no non-crash exit leaves the row at
processing. -/
theorem C1_settled_status_terminal :
    (∀ provider submitResult polls blogEnv now db,
      (startTranscription provider submitResult polls blogEnv now db).video.transcript_status
          = "completed" ∨
      (startTranscription provider submitResult polls blogEnv now db).video.transcript_status
          = "failed") ∧
    (∀ video er sr polls now v₃,
      (transcribeTask1 video er sr polls now).final = some v₃ →
      v₃.transcript_status = "completed" ∨ v₃.transcript_status = "failed") := by
  constructor
  · intro provider submitResult polls blogEnv now db
    cases submitResult with
    | error e => right; rfl
    | ok jobId =>
      rw [startTranscription]
      exact startFinish_terminal blogEnv db _ (fun hs => by
        exact pollLoop0_success_status polls provider now 120 0 _ hs)
  · intro video er sr polls now v₃ h
    rw [transcribeTask1.eq_def] at h
    split at h
    · exact submitAndPoll_terminal sr polls now _ video.audio_url false v₃ h
    · split at h
      · simp only [Option.some.injEq] at h
        right; rw [← h]; rfl
      · exact submitAndPoll_terminal sr polls now _ _ true v₃ h

/-- Witness for C1: a concrete settled part_001 run (audio reused,
submission accepted, first poll answer completed) ends terminal. -/
theorem C1_witness :
    c1Final.transcript_status = "completed" ∨
    c1Final.transcript_status = "failed" :=
  C1_settled_status_terminal.2 sampleVideoAudioDone (Except.ok "u") (Except.ok "job")
    [PollResp.completedResp (some "hello")] 7 c1Final (by decide)

/-- C2: the transcription failure write (part_000 line 224, index.js lines
776-779) sets transcript_status failed but downgrades audio_status only
from processing; a row whose audio_status is completed at failure time
keeps audio_status completed, and more generally any non-processing
audio_status value is left unchanged. -/
theorem C2_audio_failed_only_from_processing (v w : VideoRecord)
    (h : v.audio_status = "completed") (hw : w.audio_status ≠ "processing") :
    (failWriteGuarded v).transcript_status = "failed" ∧
    (failWriteGuarded v).audio_status = "completed" ∧
    (failWriteGuarded w).audio_status = w.audio_status := by
  refine ⟨rfl, ?_, ?_⟩
  · simp [failWriteGuarded, h]
  · simp [failWriteGuarded, hw]

/-- Witness for C2 at a row with completed audio and a row with pending
audio. -/
theorem C2_witness :
    (failWriteGuarded sampleVideoAudioDone).transcript_status = "failed" ∧
    (failWriteGuarded sampleVideoAudioDone).audio_status = "completed" ∧
    (failWriteGuarded sampleVideo).audio_status = sampleVideo.audio_status :=
  C2_audio_failed_only_from_processing sampleVideoAudioDone sampleVideo rfl (by decide)

/-- C3 counterexample: the public PUT transcript endpoint invoked with an
empty body (transcript, model and status all absent) persists
transcript_status completed while leaving transcript null, so completed
does not imply a non-null transcript across every operation that writes
transcript_status. -/
theorem C3_counterexample :
    (putTranscript none none none 5 sampleVideo).transcript_status = "completed" ∧
    (putTranscript none none none 5 sampleVideo).transcript = none :=
  ⟨rfl, rfl⟩

/-- C3 amended: every write of transcript_status completed also sets
transcript_updated_at, and each such write stores exactly the supplied
transcript payload, so the transcript is non-null whenever the payload
is; the PUT endpoint does not itself enforce non-nullness.  First
conjunct: the poll-completion write of part_000 / index.js.  Second: the
inline completion write of the part_001 poll loop.  Third: the PUT
endpoint always stamps transcript_updated_at and stores the supplied
transcript as is. -/
theorem C3_amended_completed_updatedAt :
    (∀ provider t now v,
      (completedWrite provider t now v).transcript_status = "completed" ∧
      (completedWrite provider t now v).transcript = t ∧
      (completedWrite provider t now v).transcript_updated_at = some now) ∧
    (∀ t now v,
      (pollLoop1 now [PollResp.completedResp t] v).1 =
        some ({ v with transcript := t, transcript_status := "completed",
                       transcript_model := some "assemblyai",
                       transcript_updated_at := some now }, RunExit.success)) ∧
    (∀ tr m st now v,
      (putTranscript tr m st now v).transcript = tr ∧
      (putTranscript tr m st now v).transcript_updated_at = some now) := by
  refine ⟨fun provider t now v => ⟨rfl, rfl, rfl⟩, fun t now v => rfl,
    fun tr m st now v => ⟨rfl, rfl⟩⟩

/-- C7: an error inside checkAutoBlogCreation is caught by its own catch
handler and is at most logged, so the already persisted transcript outcome
survives.  First conjunct: for every environment (including a failing
OpenAI call) the auto-blog step leaves the transcript columns of the video
untouched.  Second conjunct: a startTranscription run whose first poll
answer is completed ends with the full completed write persisted, for
every auto-blog environment, failing ones included. -/
theorem C7_autoblog_failure_never_reverts :
    (∀ env db,
      (checkAutoBlogCreation env db).video.transcript = db.video.transcript ∧
      (checkAutoBlogCreation env db).video.transcript_status = db.video.transcript_status ∧
      (checkAutoBlogCreation env db).video.transcript_model = db.video.transcript_model ∧
      (checkAutoBlogCreation env db).video.transcript_updated_at
          = db.video.transcript_updated_at) ∧
    (∀ provider jobId blogEnv now db s,
      (startTranscription provider (Except.ok jobId)
          (fun _ => PollResp.completedResp (some s)) blogEnv now db).video.transcript_status
            = "completed" ∧
      (startTranscription provider (Except.ok jobId)
          (fun _ => PollResp.completedResp (some s)) blogEnv now db).video.transcript
            = some s ∧
      (startTranscription provider (Except.ok jobId)
          (fun _ => PollResp.completedResp (some s)) blogEnv now db).video.transcript_model
            = some provider ∧
      (startTranscription provider (Except.ok jobId)
          (fun _ => PollResp.completedResp (some s)) blogEnv now db).video.transcript_updated_at
            = some now) := by
  constructor
  · intro env db
    obtain ⟨h1, h2, h3, h4, _, _⟩ := autoBlog_video_fields env db
    exact ⟨h1, h2, h3, h4⟩
  · intro provider jobId blogEnv now db s
    rw [startTranscription,
      pollLoop0_120_first_completed (fun _ => PollResp.completedResp (some s))
        provider now _ (some s) rfl, startFinish_success]
    refine ⟨?_, ?_, ?_, ?_⟩
    · exact ((autoBlog_video_fields blogEnv _).2.1).trans rfl
    · exact ((autoBlog_video_fields blogEnv _).1).trans rfl
    · exact ((autoBlog_video_fields blogEnv _).2.2.1).trans rfl
    · exact ((autoBlog_video_fields blogEnv _).2.2.2.1).trans rfl

theorem extractFinish_not_success (r : VideoRecord × RunExit × Nat)
    (h : (extractFinish r).2 ≠ RunExit.success) :
    (extractFinish r).1.audio_status = "failed" := by
  rcases r with ⟨v₂, ex, n⟩
  cases ex with
  | success => exact absurd rfl h
  | threw => rfl
  | timeout => rfl

/-- C4 counterexample: the part_001 transcribe poll loop has no attempt
ceiling.  On a job whose provider answer stays non-terminal for 121 status
checks and is completed on the 122nd, the background task keeps polling
past the claimed 120-attempt ceiling: it performs 122 checks of the same
job and still reaches completion instead of producing a timeout, so the
hard attempt ceiling does not hold for every polling loop in the system. -/
theorem C4_counterexample :
    (transcribeTask1 sampleVideoAudioDone (Except.ok "u") (Except.ok "job")
        longPolls 0).checks = 122 ∧
    (transcribeTask1 sampleVideoAudioDone (Except.ok "u") (Except.ok "job")
        longPolls 0).final.isSome = true ∧
    ¬(122 ≤ 120) := by
  refine ⟨by decide, by decide, by decide⟩

/-- C4 amended: the attempt ceilings hold for the bounded pollers — the
startTranscription / index.js transcribe loop never exceeds its fuel (120
at the call site) and the extract-audio loop never exceeds its fuel (60),
and exhausting the budget ends the run with the failed status persisted —
but the part_001 transcribe poll loop has no ceiling: fed any number n of
non-terminal answers it performs n checks and is still running. -/
theorem C4_amended_attempt_ceilings :
    (∀ polls provider now fuel i v,
      (pollLoop0 polls provider now fuel i v).2.2 ≤ fuel) ∧
    (∀ polls url fuel i v,
      (extractPollLoop polls url fuel i v).2.2 ≤ fuel) ∧
    (∀ provider jobId blogEnv now db,
      (startTranscription provider (Except.ok jobId) (fun _ => PollResp.other)
          blogEnv now db).video.transcript_status = "failed") ∧
    (∀ pu vid jobId v,
      (extractAudioOnly pu vid (Except.ok jobId) (fun _ => PollResp.other)
          v).1.audio_status = "failed") ∧
    (∀ now n v, pollLoop1 now (List.replicate n PollResp.other) v = (none, n)) := by
  refine ⟨fun polls provider now => pollLoop0_checks_le polls provider now,
    fun polls url => extractPollLoop_checks_le polls url, ?_, ?_, pollLoop1_all_other⟩
  · intro provider jobId blogEnv now db
    rw [startTranscription, pollLoop0_all_other]
    rfl
  · intro pu vid jobId v
    simp only [extractAudioOnly, extractPollLoop_all_other]
    rfl

/-- C5: ensureAudio (getYouTubeAudioUrl) tries the configured backends in
their fixed order, returns the first truthy URL without touching a later
backend, and raises the extraction error only with every backend
attempted.  Conjuncts one to three cover the part_001 chain (cobalt then
vevioz), four to six the part_002 chain (yt-dlp direct URL then yt-dlp
download); the Nat component counts the backends attempted. -/
theorem C5_backend_fallback_order (u m out : String) (cu vm : Option String)
    (dl : Bool) (td vid : String)
    (hu : u.isEmpty = false)
    (hcu : jsTruthy cu = false)
    (hout : (!out.isEmpty && startsWithHttp out) = true) :
    getYouTubeAudioUrl_v1 (some u) vm = (Except.ok u, 1) ∧
    getYouTubeAudioUrl_v1 cu (some m) = (Except.ok m, 2) ∧
    getYouTubeAudioUrl_v1 cu none = (Except.error "Ses URL alınamadı", 2) ∧
    getYouTubeAudioUrl_v2 (some out) dl td vid = (Except.ok out, 1) ∧
    getYouTubeAudioUrl_v2 none true td vid
      = (Except.ok ("file://" ++ td ++ "/" ++ vid ++ ".mp3"), 2) ∧
    getYouTubeAudioUrl_v2 none false td vid
      = (Except.error "Audio URL alınamadı", 2) := by
  refine ⟨?_, ?_, ?_, ?_, rfl, rfl⟩
  · simp [getYouTubeAudioUrl_v1, hu]
  · cases cu with
    | none => rfl
    | some s =>
      have hs : s.isEmpty = true := by
        simpa [jsTruthy] using hcu
      simp [getYouTubeAudioUrl_v1, hs, veviozStep]
  · cases cu with
    | none => rfl
    | some s =>
      have hs : s.isEmpty = true := by
        simpa [jsTruthy] using hcu
      simp [getYouTubeAudioUrl_v1, hs, veviozStep]
  · simp [getYouTubeAudioUrl_v2, hout]

/-- Witness for C5 at concrete backend outcomes. -/
theorem C5_witness :
    getYouTubeAudioUrl_v1 (some "https://c.mp3") (some "https://v.mp3")
      = (Except.ok "https://c.mp3", 1) ∧
    getYouTubeAudioUrl_v1 none (some "https://v.mp3") = (Except.ok "https://v.mp3", 2) ∧
    getYouTubeAudioUrl_v1 none none = (Except.error "Ses URL alınamadı", 2) ∧
    getYouTubeAudioUrl_v2 (some "https://y.mp3") true "/tmp" "vid1"
      = (Except.ok "https://y.mp3", 1) ∧
    getYouTubeAudioUrl_v2 none true "/tmp" "vid1"
      = (Except.ok ("file://" ++ "/tmp" ++ "/" ++ "vid1" ++ ".mp3"), 2) ∧
    getYouTubeAudioUrl_v2 none false "/tmp" "vid1"
      = (Except.error "Audio URL alınamadı", 2) := by
  have h := C5_backend_fallback_order "https://c.mp3" "https://v.mp3" "https://y.mp3"
    none (some "https://v.mp3") true "/tmp" "vid1" (by decide) (by decide) (by decide)
  exact ⟨h.1, h.2.1, h.2.2.1, h.2.2.2.1, h.2.2.2.2.1, h.2.2.2.2.2⟩

/-- C8: the part_001 transcribe task skips extraction exactly when the
stored row already has a truthy audio_url and audio_status completed, and
in that case it hands the stored audio_url to the transcription
submission; in every other case it calls the extraction backend chain. -/
theorem C8_audio_reuse_guard :
    (∀ video er sr polls now,
      jsTruthy video.audio_url = true → video.audio_status = "completed" →
      (transcribeTask1 video er sr polls now).extracted = false ∧
      (transcribeTask1 video er sr polls now).submitted = video.audio_url) ∧
    (∀ video er sr polls now,
      ¬(jsTruthy video.audio_url = true ∧ video.audio_status = "completed") →
      (transcribeTask1 video er sr polls now).extracted = true) := by
  constructor
  · intro video er sr polls now h1 h2
    rw [transcribeTask1.eq_def, if_pos ⟨h1, h2⟩]
    exact submitAndPoll_flags sr polls now _ video.audio_url false
  · intro video er sr polls now h
    rw [transcribeTask1.eq_def, if_neg h]
    cases er with
    | error e => rfl
    | ok url => exact (submitAndPoll_flags sr polls now _ (some url) true).1

/-- Witness for C8: a run on a row with reusable audio skips extraction
and submits the stored URL. -/
theorem C8_witness :
    (transcribeTask1 sampleVideoAudioDone (Except.ok "x") (Except.ok "j")
        [] 0).extracted = false ∧
    (transcribeTask1 sampleVideoAudioDone (Except.ok "x") (Except.ok "j")
        [] 0).submitted = sampleVideoAudioDone.audio_url :=
  C8_audio_reuse_guard.1 sampleVideoAudioDone (Except.ok "x") (Except.ok "j")
    [] 0 rfl rfl

/-- C9: in the audio-only extraction flow, a run that does not succeed
always leaves audio_status failed — the catch handler writes failed with
no processing-only guard — so even a row whose audio_status was completed
before the run ends at failed; the transcription failure write, by
contrast, keeps a completed audio_status. -/
theorem C9_extract_fail_unconditional (pu vid : String)
    (sr : Except String String) (polls : Nat → PollResp) (v w : VideoRecord)
    (hfail : (extractAudioOnly pu vid sr polls v).2 ≠ RunExit.success)
    (hw : w.audio_status = "completed") :
    (extractAudioOnly pu vid sr polls v).1.audio_status = "failed" ∧
    (failWriteGuarded w).audio_status = "completed" := by
  refine ⟨?_, by simp [failWriteGuarded, hw]⟩
  rw [extractAudioOnly.eq_def] at hfail ⊢
  cases sr with
  | error e => rfl
  | ok j => exact extractFinish_not_success _ hfail

/-- Witness for C9: a failed re-extraction on a row with completed audio
overwrites audio_status to failed, while the guarded transcription write
on the same row would have kept it. -/
theorem C9_witness :
    (extractAudioOnly "http://p" "v1" (Except.error "boom")
        (fun _ => PollResp.other) sampleVideoAudioDone).1.audio_status = "failed" ∧
    (failWriteGuarded sampleVideoAudioDone).audio_status = "completed" := by
  exact C9_extract_fail_unconditional "http://p" "v1" (Except.error "boom")
    (fun _ => PollResp.other) sampleVideoAudioDone sampleVideoAudioDone
    (by decide) (by decide)

theorem autoBlog_empty_transcript_identity (env : AutoBlogEnv) (db : DB)
    (h : jsTruthy db.video.transcript = false) :
    checkAutoBlogCreation env db = db := by
  unfold checkAutoBlogCreation
  split
  · rfl
  split
  · rfl
  split
  · rfl
  rename_i h3
  rw [h] at h3
  simp at h3

theorem autoBlog_fold_created (envs : List AutoBlogEnv) (db : DB)
    (h : db.video.blog_created = true) :
    envs.foldl (fun d e => checkAutoBlogCreation e d) db = db := by
  induction envs with
  | nil => rfl
  | cons e rest ih =>
    rw [List.foldl_cons, autoBlog_created_identity e db h]
    exact ih

theorem autoBlog_fold_once (envs : List AutoBlogEnv) : ∀ db : DB,
    (envs.foldl (fun d e => checkAutoBlogCreation e d) db).posts.length ≤
      db.posts.length + 1 := by
  induction envs with
  | nil => intro db; exact Nat.le_succ _
  | cons e rest ih =>
    intro db
    rw [List.foldl_cons]
    rcases autoBlog_cases e db with hid | ⟨hbc, hbc2, _, hlen⟩
    · rw [hid]
      exact ih db
    · rw [autoBlog_fold_created rest (checkAutoBlogCreation e db) hbc2, hlen]

/-- C6: the auto-blog step maintains blog_created implies blog_post_id
non-null and fires at most once per video.  Conjuncts: the guard makes
checkAutoBlogCreation a no-op when blog_created is already true or the
transcript is null or empty; one run preserves the pair invariant; once
blog_created is true any number of further runs change nothing; and any
sequence of runs inserts at most one post. -/
theorem C6_blog_created_pair_once :
    (∀ env db, db.video.blog_created = true → checkAutoBlogCreation env db = db) ∧
    (∀ env db, jsTruthy db.video.transcript = false → checkAutoBlogCreation env db = db) ∧
    (∀ env db, (db.video.blog_created = true → db.video.blog_post_id ≠ none) →
      ((checkAutoBlogCreation env db).video.blog_created = true →
        (checkAutoBlogCreation env db).video.blog_post_id ≠ none)) ∧
    (∀ (envs : List AutoBlogEnv) (db : DB), db.video.blog_created = true →
      envs.foldl (fun d e => checkAutoBlogCreation e d) db = db) ∧
    (∀ (envs : List AutoBlogEnv) (db : DB),
      (envs.foldl (fun d e => checkAutoBlogCreation e d) db).posts.length ≤
        db.posts.length + 1) := by
  refine ⟨autoBlog_created_identity, autoBlog_empty_transcript_identity, ?_,
    autoBlog_fold_created, fun envs db => autoBlog_fold_once envs db⟩
  intro env db hinv hcreated
  rcases autoBlog_cases env db with hid | ⟨_, _, hpid, _⟩
  · rw [hid] at hcreated ⊢
    exact hinv hcreated
  · rw [hpid]
    simp

/-- Witness for C6: on a video whose blog was already created the step is
a no-op, and two further runs insert at most one post. -/
theorem C6_witness :
    checkAutoBlogCreation sampleBlogEnv sampleDB = sampleDB ∧
    ([sampleBlogEnv, sampleBlogEnv].foldl
        (fun d e => checkAutoBlogCreation e d) sampleDB).posts.length ≤
      sampleDB.posts.length + 1 :=
  ⟨C6_blog_created_pair_once.1 sampleBlogEnv sampleDB (by decide),
   C6_blog_created_pair_once.2.2.2.2 [sampleBlogEnv, sampleBlogEnv] sampleDB⟩

/-- C10: deleting a blog post whose row carries the video id resets the
video to blog_created false and blog_post_id null, and a subsequent
enabled auto-blog run on that video (transcript still present) creates a
blog post again, so blog_created is not monotone. -/
theorem C10_delete_resets_blog_flag (db : DB) (env : AutoBlogEnv)
    (pid : Nat) (p : Post) (k c : String)
    (hfind : db.posts.find? (fun q => q.id == pid) = some p)
    (hvid : p.video_id = some db.video.id)
    (hab : env.auto_blog = some "true")
    (hkey : env.openai_api_key = some k)
    (htr : jsTruthy db.video.transcript = true)
    (hok : env.openaiResult = Except.ok c) :
    (deletePost pid db).1.video.blog_created = false ∧
    (deletePost pid db).1.video.blog_post_id = none ∧
    (checkAutoBlogCreation env (deletePost pid db).1).video.blog_created = true ∧
    (checkAutoBlogCreation env (deletePost pid db).1).posts.length
      = (deletePost pid db).1.posts.length + 1 := by
  have hdel : (deletePost pid db).1
      = { db with posts := db.posts.filter (fun q => q.id != pid),
                  video := { db.video with blog_created := false,
                                           blog_post_id := none } } := by
    unfold deletePost
    rw [hfind]
    dsimp only
    rw [hvid]
    dsimp only
    rw [if_pos rfl]
  rw [hdel]
  refine ⟨rfl, rfl, ?_, ?_⟩
  · unfold checkAutoBlogCreation
    rw [hab, hkey, hok]
    simp [htr]
  · unfold checkAutoBlogCreation
    rw [hab, hkey, hok]
    simp [htr]

/-- Witness for C10: deleting post one of sampleDB resets the video flags
and the following enabled auto-blog run creates a fresh post. -/
theorem C10_witness :
    (deletePost 1 sampleDB).1.video.blog_created = false ∧
    (deletePost 1 sampleDB).1.video.blog_post_id = none ∧
    (checkAutoBlogCreation sampleBlogEnv (deletePost 1 sampleDB).1).video.blog_created
      = true ∧
    (checkAutoBlogCreation sampleBlogEnv (deletePost 1 sampleDB).1).posts.length
      = (deletePost 1 sampleDB).1.posts.length + 1 :=
  C10_delete_resets_blog_flag sampleDB sampleBlogEnv 1
    { id := 1, content := "post body", status := "draft", video_id := some "vid1" }
    "sk-key" "generated blog" (by decide) (by decide) rfl rfl (by decide) rfl
